import Mathlib

/-!
Verification of the roster-management clock-in/clock-out application
(`app.py`) against its specification.

The application state is embedded shallowly:

* the roster file `students.csv` is a list of parsed CSV rows;
* the ledger file `clock_in_data.csv` is an `Option (List Row)` — `none`
  models a missing file, `some rows` its parsed CSV rows;
* the Flask session dictionary `clocked_in_students` is an association
  list from student number to a `SessionEntry`, with Python dict update
  semantics (in-place overwrite keeps position, fresh keys append);
* each request handler is a pure function from its inputs (form field,
  session, file contents, and the nondeterministic inputs `uuid.uuid4()`
  and `datetime.now()` passed as oracle arguments) to a `HandlerOutcome`
  recording the new file contents, the new session, flashed messages,
  the row appended in append-mode (if any), whether the ledger file was
  rewritten whole, and an uncaught Python exception (if any).
-/

/-- A parsed CSV row: `csv.reader` yields one list of strings per line. -/
abbrev Row := List String

/-- A roster entry as built by `load_students` (`{'name': …, 'number': …}`). -/
structure Person where
  name : String
  number : String
deriving Repr, DecidableEq

/-- A value of the session dictionary `clocked_in_students[student_number]`:
`{'name': …, 'clock_in_time': …, 'unique_id': …, 'clocked_in': …}`. -/
structure SessionEntry where
  name : String
  clock_in_time : String
  unique_id : String
  clocked_in : Bool
deriving Repr, DecidableEq

/-- The session dictionary `clocked_in_students`, as an ordered association
list (Python dicts preserve insertion order). -/
abbrev SessionMap := List (String × SessionEntry)

/-- Python dict lookup `m[k]` / `k in m`, as an option. -/
def dictGet : SessionMap → String → Option SessionEntry
  | [], _ => none
  | (k, v) :: rest, k0 => if k = k0 then some v else dictGet rest k0

/-- Python dict update `m[k] = v`: overwrite in place if the key exists
(keeping its position), otherwise append at the end. -/
def dictSet : SessionMap → String → SessionEntry → SessionMap
  | [], k, v => [(k, v)]
  | (k0, v0) :: rest, k, v =>
      if k0 = k then (k, v) :: rest else (k0, v0) :: dictSet rest k v

/-- Result of one request handler run. -/
structure HandlerOutcome where
  /-- Contents of `clock_in_data.csv` after the request (`none` = missing). -/
  ledger : Option (List Row)
  /-- The session dictionary after the request. -/
  sess : SessionMap
  /-- Messages passed to `flash`. -/
  flashes : List String
  /-- The row written via append-mode `csv.writer.writerow`, if any. -/
  appended : Option Row
  /-- Whether the ledger file was reopened in write mode and rewritten whole. -/
  rewrote : Bool
  /-- An uncaught Python exception terminating the request, if any. -/
  error : Option String
deriving Repr, DecidableEq

/-- `load_students` (app.py lines 43–54): open `students.csv`, skip the
header with `next(reader)`, and build `{'name': row[0], 'number': row[1]}`
per remaining row.  A missing file raises `FileNotFoundError`, an empty
file raises `StopIteration` at `next(reader)`, and a row with fewer than
two fields raises `IndexError` at `row[1]` (or `row[0]`); none of these
are caught. -/
def parseStudents : List Row → Except String (List Person)
  | [] => Except.ok []
  | row :: rest =>
      match row[0]?, row[1]? with
      | some n, some num => (parseStudents rest).map (fun ps => ⟨n, num⟩ :: ps)
      | _, _ => Except.error "IndexError"

def load_students (file : Option (List Row)) : Except String (List Person) :=
  match file with
  | none => Except.error "FileNotFoundError"
  | some [] => Except.error "StopIteration"
  | some (_header :: rows) => parseStudents rows

/-- The roster scan of `clock_in` (app.py lines 80–83): the first student
whose `number` equals the submitted form value gives `student_name`; if no
row matches, `student_name` stays unassigned. -/
def findStudentName (students : List Person) (student_number : String) : Option String :=
  (students.find? (fun s => s.number == student_number)).map Person.name

/-- `str(uuid.uuid4())[:8]` (app.py line 92): the 36-character random UUID
string truncated to its first 8 characters (Python slicing is
character-based).  The randomness is an oracle argument; the truncation is
modelled. -/
def makeUniqueId (uuidStr : String) : String := (uuidStr.toList.take 8).asString

/-- The fields of a `datetime.datetime` used by the format string. -/
structure DateTime where
  hour : Nat
  minute : Nat
  second : Nat
  day : Nat
  month : Nat
  year : Nat
deriving Repr, DecidableEq

/-- strftime zero-padding to width 2 (`%H`, `%M`, `%S`, `%d`, `%m`). -/
def pad2 (n : Nat) : String := if n < 10 then "0" ++ toString n else toString n

/-- `datetime.now().strftime('%H:%M:%S %d-%m-%Y')` (app.py lines 93, 125). -/
def formatTimestamp (t : DateTime) : String :=
  pad2 t.hour ++ ":" ++ pad2 t.minute ++ ":" ++ pad2 t.second ++ " " ++
    pad2 t.day ++ "-" ++ pad2 t.month ++ "-" ++ toString t.year

/-- The already-clocked-in test shared by both guards (app.py lines 86 and
119): `student_number in clocked_in_students and
clocked_in_students[student_number]['clocked_in']`. -/
def sessionClockedIn (sess : SessionMap) (student_number : String) : Bool :=
  match dictGet sess student_number with
  | some e => e.clocked_in
  | none => false

/-- The `/clock_in` handler (app.py lines 73–109).

`students` is the roster read by `load_students` at line 74, `sess` the
session dictionary, `ledgerFile` the state of `clock_in_data.csv`,
`student_number` the form field, and `uuidStr`, `now` the oracle values of
`uuid.uuid4()` and `datetime.now()`.

Paths, in source order:
* already-clocked-in guard (line 86): flash and redirect, nothing written;
* no roster match: `student_name` was never assigned, so building the row
  at line 98 raises `UnboundLocalError`; the append-mode `open` at line 96
  has already created the file if it was missing, but no row is written
  and the session is not committed;
* success: append one row and set the session entry. -/
def clock_in (students : List Person) (sess : SessionMap)
    (ledgerFile : Option (List Row)) (student_number : String)
    (uuidStr : String) (now : DateTime) : HandlerOutcome :=
  if sessionClockedIn sess student_number then
    ⟨ledgerFile, sess, ["Error: you are already clocked in"], none, false, none⟩
  else
    let unique_id := makeUniqueId uuidStr
    let clock_in_time := formatTimestamp now
    match findStudentName students student_number with
    | none =>
        ⟨some (ledgerFile.getD []), sess, [], none, false, some "UnboundLocalError"⟩
    | some student_name =>
        let row := [student_number, student_name, unique_id, clock_in_time, "", "clock-in"]
        ⟨some (ledgerFile.getD [] ++ [row]),
         dictSet sess student_number ⟨student_name, clock_in_time, unique_id, true⟩,
         [], some row, false, none⟩

/-- The row test of the `clock_out` scan (app.py line 135):
`len(row) >= 6 and row[0] == student_number and row[2] == unique_id and
row[5] == "clock-in"`. -/
def rowMatches (student_number unique_id : String) (row : Row) : Bool :=
  decide (6 ≤ row.length) && (row[0]? == some student_number) &&
    (row[2]? == some unique_id) && (row[5]? == some "clock-in")

/-- The in-place row mutation of the scan (app.py lines 136–137):
`row[4] = clock_out_time; row[5] = "clock-out"` on a matching row. -/
def updateRow (student_number unique_id clock_out_time : String) (row : Row) : Row :=
  if rowMatches student_number unique_id row then
    (row.set 4 clock_out_time).set 5 "clock-out"
  else row

/-- The scan-and-collect loop of `clock_out` (app.py lines 129–139), the
code the specification calls `Ledger.close_clock_in`: every row is
appended to `rows` (mutated if it matches), and `updated` records whether
some row matched. -/
def close_clock_in (ledger : List Row)
    (student_number unique_id clock_out_time : String) : List Row × Bool :=
  match ledger with
  | [] => ([], false)
  | row :: rest =>
      let tail := close_clock_in rest student_number unique_id clock_out_time
      if rowMatches student_number unique_id row then
        ((row.set 4 clock_out_time).set 5 "clock-out" :: tail.1, true)
      else
        (row :: tail.1, tail.2)

/-- The `/clock_out` handler (app.py lines 113–148).

Paths, in source order:
* not-clocked-in guard (line 119): flash and redirect, file untouched;
* missing ledger file: the read-mode `open` at line 131 raises
  `FileNotFoundError` before anything is written;
* otherwise: scan all rows, rewrite the whole file with the (possibly
  mutated) rows, and set the session entry's `clocked_in` to `False`
  whether or not the scan matched. -/
def clock_out (sess : SessionMap) (ledgerFile : Option (List Row))
    (student_number : String) (now : DateTime) : HandlerOutcome :=
  match dictGet sess student_number with
  | none => ⟨ledgerFile, sess, ["Error: you are not clocked in"], none, false, none⟩
  | some e =>
      if !e.clocked_in then
        ⟨ledgerFile, sess, ["Error: you are not clocked in"], none, false, none⟩
      else
        let clock_out_time := formatTimestamp now
        match ledgerFile with
        | none => ⟨none, sess, [], none, false, some "FileNotFoundError"⟩
        | some ledger =>
            let scan := close_clock_in ledger student_number e.unique_id clock_out_time
            ⟨some scan.1,
             dictSet sess student_number ⟨e.name, e.clock_in_time, e.unique_id, false⟩,
             [], none, true, none⟩

/-! ### The request state machine

`step` runs one POST request against the shared state (ledger file,
session); the roster contents and the oracle values are part of the
request, since `students.csv` is re-read on every request and may change
between requests. -/

/-- One POST request with the values the handler reads from its
environment. -/
inductive Request where
  | clockInReq (students : List Person) (student_number uuidStr : String) (now : DateTime)
  | clockOutReq (student_number : String) (now : DateTime)
deriving Repr

/-- Shared mutable state: the ledger file and the session dictionary. -/
abbrev AppState := Option (List Row) × SessionMap

/-- Run one request; the resulting ledger file and session become the new
shared state (flashes and errors do not persist). -/
def step (s : AppState) (r : Request) : AppState :=
  match r with
  | .clockInReq students n u now =>
      let o := clock_in students s.2 s.1 n u now
      (o.ledger, o.sess)
  | .clockOutReq n now =>
      let o := clock_out s.2 s.1 n now
      (o.ledger, o.sess)

/-- Run a sequence of requests from an empty ledger file and empty
session. -/
def run (reqs : List Request) : AppState :=
  reqs.foldl step (some [], [])

/-- The claim predicate: this ledger row records an open clock-in for
identity `n` (field 0 is `n`, field 5 — the status — is `"clock-in"`). -/
def isOpenFor (n : String) (row : Row) : Bool :=
  (row[0]? == some n) && (row[5]? == some "clock-in")

/-- Number of open clock-in rows for identity `n`. -/
def openCount (led : List Row) (n : String) : Nat :=
  (led.filter (isOpenFor n)).length

/-! ### The session/ledger invariant -/

/-- The invariant relating the ledger file and the session: each identity
has at most one open clock-in row, and every open row is covered by a
session entry currently marked clocked-in whose stored `unique_id` is the
row's event id. -/
def SessionLedgerInv (led : List Row) (sess : SessionMap) : Prop :=
  ∀ n : String,
    openCount led n ≤ 1 ∧
    ∀ row ∈ led, isOpenFor n row = true →
      ∃ e, dictGet sess n = some e ∧ e.clocked_in = true ∧
        row[2]? = some e.unique_id

/-- The invariant on the shared request state. -/
def StateInv (s : AppState) : Prop :=
  SessionLedgerInv (s.1.getD []) s.2

/-! ### Helper lemmas -/

theorem dictGet_dictSet_self (m : SessionMap) (k : String) (v : SessionEntry) :
    dictGet (dictSet m k v) k = some v := by
  induction m with
  | nil => simp [dictSet, dictGet]
  | cons p rest ih =>
      obtain ⟨k0, v0⟩ := p
      by_cases h : k0 = k
      · simp [dictSet, dictGet, h]
      · simp [dictSet, dictGet, h, ih]

theorem dictGet_dictSet_ne (m : SessionMap) (k k0 : String) (v : SessionEntry)
    (h : k ≠ k0) : dictGet (dictSet m k v) k0 = dictGet m k0 := by
  induction m with
  | nil => simp [dictSet, dictGet, h]
  | cons p rest ih =>
      obtain ⟨k1, v1⟩ := p
      by_cases h1 : k1 = k
      · subst h1
        simp [dictSet, dictGet, h]
      · simp [dictSet, dictGet, h1, ih]

theorem close_clock_in_fst (ledger : List Row) (n u t : String) :
    (close_clock_in ledger n u t).1 = ledger.map (updateRow n u t) := by
  induction ledger with
  | nil => rfl
  | cons row rest ih =>
      by_cases h : rowMatches n u row
      · simp [close_clock_in, updateRow, h, ih]
      · simp [close_clock_in, updateRow, h, ih]

theorem close_clock_in_snd (ledger : List Row) (n u t : String) :
    (close_clock_in ledger n u t).2 = ledger.any (rowMatches n u) := by
  induction ledger with
  | nil => rfl
  | cons row rest ih =>
      by_cases h : rowMatches n u row
      · simp [close_clock_in, h]
      · simp [close_clock_in, h, ih]

theorem rowMatches_iff {n u : String} {row : Row} :
    rowMatches n u row = true ↔
      6 ≤ row.length ∧ row[0]? = some n ∧ row[2]? = some u ∧
        row[5]? = some "clock-in" := by
  simp [rowMatches, and_assoc]

theorem updateRow_of_not_matches {n u t : String} {row : Row}
    (h : rowMatches n u row = false) : updateRow n u t row = row := by
  simp [updateRow, h]

theorem rowMatches_length {n u : String} {row : Row}
    (h : rowMatches n u row = true) : 6 ≤ row.length :=
  (rowMatches_iff.mp h).1

theorem updateRow_getElem5 {n u : String} (t : String) {row : Row}
    (h : rowMatches n u row = true) :
    (updateRow n u t row)[5]? = some "clock-out" := by
  have hlen : 5 < (row.set 4 t).length := by
    rw [List.length_set]
    exact lt_of_lt_of_le (by norm_num) (rowMatches_length h)
  simp only [updateRow, h, if_true]
  exact List.getElem?_set_eq_of_lt _ hlen

theorem updateRow_getElem4 {n u : String} (t : String) {row : Row}
    (h : rowMatches n u row = true) :
    (updateRow n u t row)[4]? = some t := by
  have hlen : 4 < row.length :=
    lt_of_lt_of_le (by norm_num) (rowMatches_length h)
  simp only [updateRow, h, if_true]
  rw [List.getElem?_set_ne (show (5 : Nat) ≠ 4 by norm_num)]
  exact List.getElem?_set_eq_of_lt _ hlen

theorem updateRow_getElem0 {n u : String} (t : String) {row : Row}
    (h : rowMatches n u row = true) :
    (updateRow n u t row)[0]? = row[0]? := by
  simp only [updateRow, h, if_true]
  rw [List.getElem?_set_ne (show (5 : Nat) ≠ 0 by norm_num),
    List.getElem?_set_ne (show (4 : Nat) ≠ 0 by norm_num)]

theorem isOpenFor_updateRow_of_matches {n u t m : String} {row : Row}
    (h : rowMatches n u row = true) :
    isOpenFor m (updateRow n u t row) = false := by
  have hne : (some "clock-out" == some (α := String) "clock-in") = false := by decide
  simp [isOpenFor, updateRow_getElem5 t h, hne]

theorem isOpenFor_length {m : String} {row : Row}
    (h : isOpenFor m row = true) : 6 ≤ row.length := by
  simp [isOpenFor] at h
  obtain ⟨-, h5⟩ := h
  obtain ⟨hl, -⟩ := List.getElem?_eq_some.mp h5
  omega

theorem rowMatches_of_isOpenFor {m u : String} {row : Row}
    (h : isOpenFor m row = true) (h2 : row[2]? = some u) :
    rowMatches m u row = true := by
  have hlen := isOpenFor_length h
  simp [isOpenFor] at h
  exact rowMatches_iff.mpr ⟨hlen, h.1, h2, h.2⟩

/-! ### Characterizations of the handler paths -/

theorem sessionClockedIn_eq_true {sess : SessionMap} {n : String}
    {e : SessionEntry} (hd : dictGet sess n = some e) (hc : e.clocked_in = true) :
    sessionClockedIn sess n = true := by
  simp [sessionClockedIn, hd, hc]

theorem clock_in_blocked (students : List Person) (sess : SessionMap)
    (lf : Option (List Row)) (n u : String) (now : DateTime)
    (hg : sessionClockedIn sess n = true) :
    clock_in students sess lf n u now =
      ⟨lf, sess, ["Error: you are already clocked in"], none, false, none⟩ := by
  simp [clock_in, hg]

theorem clock_in_unbound (students : List Person) (sess : SessionMap)
    (lf : Option (List Row)) (n u : String) (now : DateTime)
    (hg : sessionClockedIn sess n = false)
    (hf : findStudentName students n = none) :
    clock_in students sess lf n u now =
      ⟨some (lf.getD []), sess, [], none, false, some "UnboundLocalError"⟩ := by
  simp [clock_in, hg, hf]

theorem clock_in_success (students : List Person) (sess : SessionMap)
    (lf : Option (List Row)) (n u : String) (now : DateTime) (name : String)
    (hg : sessionClockedIn sess n = false)
    (hf : findStudentName students n = some name) :
    clock_in students sess lf n u now =
      ⟨some (lf.getD [] ++
          [[n, name, makeUniqueId u, formatTimestamp now, "", "clock-in"]]),
       dictSet sess n ⟨name, formatTimestamp now, makeUniqueId u, true⟩,
       [], some [n, name, makeUniqueId u, formatTimestamp now, "", "clock-in"],
       false, none⟩ := by
  simp [clock_in, hg, hf]

theorem clock_out_blocked_absent (sess : SessionMap) (lf : Option (List Row))
    (n : String) (now : DateTime) (hd : dictGet sess n = none) :
    clock_out sess lf n now =
      ⟨lf, sess, ["Error: you are not clocked in"], none, false, none⟩ := by
  simp [clock_out, hd]

theorem clock_out_blocked_out (sess : SessionMap) (lf : Option (List Row))
    (n : String) (now : DateTime) (e : SessionEntry)
    (hd : dictGet sess n = some e) (hc : e.clocked_in = false) :
    clock_out sess lf n now =
      ⟨lf, sess, ["Error: you are not clocked in"], none, false, none⟩ := by
  simp [clock_out, hd, hc]

theorem clock_out_missing_file (sess : SessionMap) (n : String)
    (now : DateTime) (e : SessionEntry)
    (hd : dictGet sess n = some e) (hc : e.clocked_in = true) :
    clock_out sess none n now =
      ⟨none, sess, [], none, false, some "FileNotFoundError"⟩ := by
  simp [clock_out, hd, hc]

theorem clock_out_success (sess : SessionMap) (ledger : List Row)
    (n : String) (now : DateTime) (e : SessionEntry)
    (hd : dictGet sess n = some e) (hc : e.clocked_in = true) :
    clock_out sess (some ledger) n now =
      ⟨some (ledger.map (updateRow n e.unique_id (formatTimestamp now))),
       dictSet sess n ⟨e.name, e.clock_in_time, e.unique_id, false⟩,
       [], none, true, none⟩ := by
  simp [clock_out, hd, hc, close_clock_in_fst]

theorem isOpenFor_newRow (m n name uid t : String) :
    isOpenFor m [n, name, uid, t, "", "clock-in"] = (n == m) := by
  simp [isOpenFor]

theorem no_open_of_not_clockedIn {led : List Row} {sess : SessionMap}
    {n : String} (h : SessionLedgerInv led sess)
    (hg : sessionClockedIn sess n = false) :
    ∀ row ∈ led, isOpenFor n row = false := by
  intro row hrow
  by_contra hopen
  rw [Bool.not_eq_false] at hopen
  obtain ⟨e, hd, hc, -⟩ := (h n).2 row hrow hopen
  rw [sessionClockedIn_eq_true hd hc] at hg
  cases hg

theorem sessionLedgerInv_append {led : List Row} {sess : SessionMap}
    {n : String} (name uid t : String)
    (h : SessionLedgerInv led sess) (hg : sessionClockedIn sess n = false) :
    SessionLedgerInv (led ++ [[n, name, uid, t, "", "clock-in"]])
      (dictSet sess n ⟨name, t, uid, true⟩) := by
  intro m
  by_cases hmn : n = m
  · subst hmn
    have hnone := no_open_of_not_clockedIn h hg
    constructor
    · unfold openCount
      rw [List.filter_append]
      have h1 : led.filter (isOpenFor n) = [] :=
        List.filter_eq_nil_iff.mpr (fun a ha => by simp [hnone a ha])
      rw [h1]
      simp [isOpenFor_newRow]
    · intro row hrow hopen
      rcases List.mem_append.mp hrow with hin | hin
      · rw [hnone row hin] at hopen
        cases hopen
      · have heq := List.mem_singleton.mp hin
        subst heq
        exact ⟨⟨name, t, uid, true⟩, dictGet_dictSet_self sess n _, rfl, by simp⟩
  · constructor
    · unfold openCount
      rw [List.filter_append]
      have h2 : [[n, name, uid, t, "", "clock-in"]].filter (isOpenFor m) = [] := by
        simp [isOpenFor_newRow, hmn]
      rw [h2, List.append_nil]
      exact (h m).1
    · intro row hrow hopen
      rcases List.mem_append.mp hrow with hin | hin
      · obtain ⟨e, hd, hc, hu⟩ := (h m).2 row hin hopen
        exact ⟨e, by rw [dictGet_dictSet_ne _ _ _ _ hmn]; exact hd, hc, hu⟩
      · have heq := List.mem_singleton.mp hin
        subst heq
        rw [isOpenFor_newRow] at hopen
        simp [hmn] at hopen

theorem length_filter_map_update (n u t m : String) :
    ∀ led : List Row,
      ((led.map (updateRow n u t)).filter (isOpenFor m)).length ≤
        (led.filter (isOpenFor m)).length
  | [] => le_refl _
  | row :: rest => by
      have ih := length_filter_map_update n u t m rest
      by_cases hm : rowMatches n u row = true
      · have hclosed := isOpenFor_updateRow_of_matches (t := t) (m := m) hm
        calc ((List.map (updateRow n u t) (row :: rest)).filter (isOpenFor m)).length
            = ((List.map (updateRow n u t) rest).filter (isOpenFor m)).length := by
              simp [List.filter_cons, hclosed]
          _ ≤ (rest.filter (isOpenFor m)).length := ih
          _ ≤ ((row :: rest).filter (isOpenFor m)).length := by
              by_cases ho : isOpenFor m row = true
              · simp only [List.filter_cons, ho, if_true, List.length_cons]
                omega
              · simp only [List.filter_cons, ho, if_false]
                exact le_refl _
      · rw [Bool.not_eq_true] at hm
        have hrr := updateRow_of_not_matches (t := t) hm
        simp only [List.map_cons, hrr, List.filter_cons]
        by_cases ho : isOpenFor m row = true
        · simp only [ho, if_true, List.length_cons]
          omega
        · simp only [ho, if_false]
          exact ih

theorem sessionLedgerInv_close {led : List Row} {sess : SessionMap}
    {n : String} {e : SessionEntry} (t : String)
    (h : SessionLedgerInv led sess)
    (hd : dictGet sess n = some e) (_hc : e.clocked_in = true) :
    SessionLedgerInv (led.map (updateRow n e.unique_id t))
      (dictSet sess n ⟨e.name, e.clock_in_time, e.unique_id, false⟩) := by
  intro m
  constructor
  · exact le_trans (length_filter_map_update n e.unique_id t m led) (h m).1
  · intro row' hrow' hopen
    obtain ⟨row, hrow, hup⟩ := List.mem_map.mp hrow'
    by_cases hm : rowMatches n e.unique_id row = true
    · rw [← hup, isOpenFor_updateRow_of_matches (t := t) (m := m) hm] at hopen
      cases hopen
    · rw [Bool.not_eq_true] at hm
      have hrr := updateRow_of_not_matches (t := t) hm
      rw [hrr] at hup
      subst hup
      obtain ⟨e0, hd0, hc0, hu0⟩ := (h m).2 row hrow hopen
      by_cases hmn : n = m
      · subst hmn
        rw [hd] at hd0
        injection hd0 with he
        subst he
        rw [rowMatches_of_isOpenFor hopen hu0] at hm
        cases hm
      · exact ⟨e0, by rw [dictGet_dictSet_ne _ _ _ _ hmn]; exact hd0, hc0, hu0⟩

theorem stateInv_step (s : AppState) (r : Request) (h : StateInv s) :
    StateInv (step s r) := by
  obtain ⟨lf, sess⟩ := s
  cases r with
  | clockInReq students n u now =>
      by_cases hg : sessionClockedIn sess n = true
      · simp only [step, clock_in_blocked students sess lf n u now hg]
        exact h
      · rw [Bool.not_eq_true] at hg
        cases hf : findStudentName students n with
        | none =>
            simp only [step, clock_in_unbound students sess lf n u now hg hf]
            simpa [StateInv] using h
        | some name =>
            simp only [step, clock_in_success students sess lf n u now name hg hf]
            have := sessionLedgerInv_append name (makeUniqueId u) (formatTimestamp now) h hg
            simpa [StateInv] using this
  | clockOutReq n now =>
      cases hd : dictGet sess n with
      | none =>
          simp only [step, clock_out_blocked_absent sess lf n now hd]
          exact h
      | some e =>
          by_cases hc : e.clocked_in = true
          · cases lf with
            | none =>
                simp only [step, clock_out_missing_file sess n now e hd hc]
                exact h
            | some ledger =>
                simp only [step, clock_out_success sess ledger n now e hd hc]
                have := sessionLedgerInv_close (formatTimestamp now) h hd hc
                simpa [StateInv] using this
          · rw [Bool.not_eq_true] at hc
            simp only [step, clock_out_blocked_out sess lf n now e hd hc]
            exact h

theorem stateInv_foldl : ∀ (reqs : List Request) (s : AppState),
    StateInv s → StateInv (reqs.foldl step s)
  | [], _, h => h
  | r :: rest, s, h => stateInv_foldl rest (step s r) (stateInv_step s r h)

theorem stateInv_run (reqs : List Request) : StateInv (run reqs) := by
  apply stateInv_foldl
  intro n
  exact ⟨by simp [openCount], by intro row hrow; cases hrow⟩

/-! ### Further helper lemmas for the claims -/

theorem makeUniqueId_length {u : String} (h : 8 ≤ u.length) :
    (makeUniqueId u).length = 8 := by
  have hd : u.toList.length = u.length := by
    simp [String.toList]
  simp only [makeUniqueId, List.length_asString, List.length_take]
  omega

theorem pad2_length {n : Nat} (h : n < 100) : (pad2 n).length = 2 := by
  have hall : ∀ m : Nat, m < 100 → (pad2 m).length = 2 := by decide
  exact hall n h

theorem map_update_eq_self_of_no_match (n u t : String) :
    ∀ led : List Row, (∀ row ∈ led, rowMatches n u row = false) →
      led.map (updateRow n u t) = led
  | [], _ => rfl
  | row :: rest, h => by
      rw [List.map_cons, updateRow_of_not_matches (h row (List.mem_cons_self row rest)),
        map_update_eq_self_of_no_match n u t rest
          (fun r hr => h r (List.mem_cons_of_mem row hr))]

theorem rowMatches_short {n u : String} {row : Row} (h : row.length < 6) :
    rowMatches n u row = false := by
  have h6 : (decide (6 ≤ row.length)) = false := decide_eq_false (by omega)
  simp [rowMatches, h6]

theorem parseStudents_error_of_short :
    ∀ rows : List Row, (∃ r ∈ rows, r.length < 2) →
      ∃ msg, parseStudents rows = Except.error msg := by
  intro rows
  induction rows with
  | nil =>
      rintro ⟨r, hr, -⟩
      cases hr
  | cons row rest ih =>
      rintro ⟨r, hr, hlen⟩
      rcases List.mem_cons.mp hr with heq | hr
      · subst heq
        have h1 : r[1]? = none := List.getElem?_eq_none (by omega)
        cases h0 : r[0]? with
        | none => exact ⟨"IndexError", by simp [parseStudents, h0, h1]⟩
        | some a => exact ⟨"IndexError", by simp [parseStudents, h0, h1]⟩
      · obtain ⟨msg, hmsg⟩ := ih ⟨r, hr, hlen⟩
        cases h0 : row[0]? with
        | none => exact ⟨"IndexError", by simp [parseStudents, h0]⟩
        | some a =>
            cases h1 : row[1]? with
            | none => exact ⟨"IndexError", by simp [parseStudents, h0, h1]⟩
            | some b =>
                exact ⟨msg, by simp [parseStudents, h0, h1, hmsg, Except.map]⟩

/-! ### Claim theorems -/

/-- C1: for every session in which identity `X` is not clocked in, a
clock-in for `X` followed by a clock-out for `X` in that session appends
one ledger row and then changes exactly that row, transitioning its status
from "clock-in" to "clock-out" and populating its `clock_out_time`
(field 4), while every other ledger row is identical to before.  The
clock-in must resolve `X` in the roster, and the generated event id must
not collide with an existing open row of `X` (the spec ignores collision
probability for the fresh token). -/
theorem C1_round_trip (students : List Person) (sess : SessionMap)
    (lf : Option (List Row)) (X u name : String) (t1 t2 : DateTime)
    (hg : sessionClockedIn sess X = false)
    (hf : findStudentName students X = some name)
    (hfresh : ∀ row ∈ lf.getD [], rowMatches X (makeUniqueId u) row = false) :
    (clock_in students sess lf X u t1).ledger =
      some (lf.getD [] ++
        [[X, name, makeUniqueId u, formatTimestamp t1, "", "clock-in"]]) ∧
    (clock_out (clock_in students sess lf X u t1).sess
        (clock_in students sess lf X u t1).ledger X t2).ledger =
      some (lf.getD [] ++
        [[X, name, makeUniqueId u, formatTimestamp t1, formatTimestamp t2,
          "clock-out"]]) := by
  rw [clock_in_success students sess lf X u t1 name hg hf]
  refine ⟨rfl, ?_⟩
  have hd : dictGet
      (dictSet sess X ⟨name, formatTimestamp t1, makeUniqueId u, true⟩) X =
      some ⟨name, formatTimestamp t1, makeUniqueId u, true⟩ :=
    dictGet_dictSet_self sess X _
  rw [clock_out_success _ _ X t2 _ hd rfl]
  have hm : rowMatches X (makeUniqueId u)
      [X, name, makeUniqueId u, formatTimestamp t1, "", "clock-in"] = true := by
    simp [rowMatches]
  rw [List.map_append, map_update_eq_self_of_no_match _ _ _ _ hfresh]
  simp only [List.map_cons, List.map_nil, updateRow, hm, if_true]
  rfl

/-- C1 witness: a concrete roster, a pre-existing unrelated open row, and
a full clock-in/clock-out round trip for Jane Doe. -/
theorem C1_round_trip_witness :
    (clock_out
        (clock_in [⟨"Jane Doe", "1001"⟩] []
          (some [["1002", "Bob", "deadbeef", "08:00:00 11-10-2026", "", "clock-in"]])
          "1001" "123e4567-e89b-12d3-a456-426614174000" ⟨9, 5, 3, 12, 10, 2026⟩).sess
        (clock_in [⟨"Jane Doe", "1001"⟩] []
          (some [["1002", "Bob", "deadbeef", "08:00:00 11-10-2026", "", "clock-in"]])
          "1001" "123e4567-e89b-12d3-a456-426614174000" ⟨9, 5, 3, 12, 10, 2026⟩).ledger
        "1001" ⟨17, 0, 1, 12, 10, 2026⟩).ledger =
      some [["1002", "Bob", "deadbeef", "08:00:00 11-10-2026", "", "clock-in"],
            ["1001", "Jane Doe", "123e4567", "09:05:03 12-10-2026",
             "17:00:01 12-10-2026", "clock-out"]] := by
  have h := C1_round_trip [⟨"Jane Doe", "1001"⟩] []
      (some [["1002", "Bob", "deadbeef", "08:00:00 11-10-2026", "", "clock-in"]])
      "1001" "123e4567-e89b-12d3-a456-426614174000" "Jane Doe"
      ⟨9, 5, 3, 12, 10, 2026⟩ ⟨17, 0, 1, 12, 10, 2026⟩ rfl (by decide) (by decide)
  rw [h.2]
  decide

/-- C2: `close_clock_in` — the scan-and-rewrite block of `clock_out`
(app.py lines 129–143) — visits every row: the output is the elementwise
`updateRow` image of the input, of equal length and in original order;
rows failing the match test are unchanged; rows matching the identity,
event id, and status "clock-in" get field 4 set to the clock-out time and
field 5 set to "clock-out" (other fields untouched); the `updated` flag
the operation yields is `true` exactly when some row matched. -/
theorem C2_close_clock_in_spec (ledger : List Row) (n u t : String) :
    (close_clock_in ledger n u t).1 = ledger.map (updateRow n u t) ∧
    (close_clock_in ledger n u t).1.length = ledger.length ∧
    (∀ row, rowMatches n u row = false → updateRow n u t row = row) ∧
    (∀ row, rowMatches n u row = true →
      (updateRow n u t row)[4]? = some t ∧
      (updateRow n u t row)[5]? = some "clock-out" ∧
      (updateRow n u t row)[0]? = row[0]?) ∧
    ((close_clock_in ledger n u t).2 = true ↔
      ∃ row ∈ ledger, rowMatches n u row = true) := by
  refine ⟨close_clock_in_fst ledger n u t, ?_, ?_, ?_, ?_⟩
  · rw [close_clock_in_fst]
    exact List.length_map ledger _
  · intro row hrow
    exact updateRow_of_not_matches hrow
  · intro row hrow
    exact ⟨updateRow_getElem4 t hrow, updateRow_getElem5 t hrow,
      updateRow_getElem0 t hrow⟩
  · rw [close_clock_in_snd]
    simp [List.any_eq_true]

/-- C2 witness: on a two-row ledger the scan reports a match for the row
carrying the queried identity and event id. -/
theorem C2_close_clock_in_spec_witness :
    (close_clock_in
        [["1001", "Jane Doe", "ab12cd34", "09:00:00 01-02-2026", "", "clock-in"],
         ["1002", "Bob", "ffffffff", "08:00:00 01-02-2026", "", "clock-in"]]
        "1001" "ab12cd34" "17:30:00 01-02-2026").2 = true := by
  have h := C2_close_clock_in_spec
      [["1001", "Jane Doe", "ab12cd34", "09:00:00 01-02-2026", "", "clock-in"],
       ["1002", "Bob", "ffffffff", "08:00:00 01-02-2026", "", "clock-in"]]
      "1001" "ab12cd34" "17:30:00 01-02-2026"
  exact h.2.2.2.2.mpr
    ⟨["1001", "Jane Doe", "ab12cd34", "09:00:00 01-02-2026", "", "clock-in"],
     by decide, by decide⟩

/-- C3: in every state reachable by any sequence of clock-in and
clock-out requests within one session, starting from an empty ledger and
empty session, at most one ledger row per identity has status
"clock-in". -/
theorem C3_at_most_one_open_row (reqs : List Request) (n : String) :
    openCount ((run reqs).1.getD []) n ≤ 1 :=
  ((stateInv_run reqs) n).1

/-- C4: a clock-in request for an identity whose session entry has
`clocked_in = true` performs no ledger append, leaves the ledger file and
the session unchanged, and flashes the "already clocked in" warning. -/
theorem C4_clock_in_already_clocked_in (students : List Person)
    (sess : SessionMap) (lf : Option (List Row)) (n u : String)
    (now : DateTime) (e : SessionEntry)
    (hd : dictGet sess n = some e) (hc : e.clocked_in = true) :
    clock_in students sess lf n u now =
      ⟨lf, sess, ["Error: you are already clocked in"], none, false, none⟩ :=
  clock_in_blocked students sess lf n u now (sessionClockedIn_eq_true hd hc)

/-- C4 witness. -/
theorem C4_clock_in_already_clocked_in_witness :
    clock_in [⟨"Jane Doe", "1001"⟩]
      [("1001", ⟨"Jane Doe", "09:00:00 01-02-2026", "ab12cd34", true⟩)]
      (some [["1001", "Jane Doe", "ab12cd34", "09:00:00 01-02-2026", "", "clock-in"]])
      "1001" "99998888-aaaa-bbbb-cccc-ddddeeeeffff" ⟨10, 0, 0, 1, 2, 2026⟩ =
      ⟨some [["1001", "Jane Doe", "ab12cd34", "09:00:00 01-02-2026", "", "clock-in"]],
       [("1001", ⟨"Jane Doe", "09:00:00 01-02-2026", "ab12cd34", true⟩)],
       ["Error: you are already clocked in"], none, false, none⟩ :=
  C4_clock_in_already_clocked_in _ _ _ _ _ _
    ⟨"Jane Doe", "09:00:00 01-02-2026", "ab12cd34", true⟩ (by decide) rfl

/-- C5: a clock-out request for an identity absent from the session, or
present with `clocked_in = false`, performs no ledger rewrite, leaves the
ledger file (and session) unchanged, and flashes the "not clocked in"
warning. -/
theorem C5_clock_out_not_clocked_in (sess : SessionMap)
    (lf : Option (List Row)) (n : String) (now : DateTime)
    (h : dictGet sess n = none ∨
      ∃ e, dictGet sess n = some e ∧ e.clocked_in = false) :
    clock_out sess lf n now =
      ⟨lf, sess, ["Error: you are not clocked in"], none, false, none⟩ := by
  rcases h with hd | ⟨e, hd, hc⟩
  · exact clock_out_blocked_absent sess lf n now hd
  · exact clock_out_blocked_out sess lf n now e hd hc

/-- C5 witness. -/
theorem C5_clock_out_not_clocked_in_witness :
    clock_out []
      (some [["1001", "Jane Doe", "ab12cd34", "09:00:00 01-02-2026", "", "clock-in"]])
      "1001" ⟨11, 0, 0, 1, 2, 2026⟩ =
      ⟨some [["1001", "Jane Doe", "ab12cd34", "09:00:00 01-02-2026", "", "clock-in"]],
       [], ["Error: you are not clocked in"], none, false, none⟩ :=
  C5_clock_out_not_clocked_in _ _ _ _ (Or.inl rfl)

/-- C6: a clock-in by a roster identity not currently clocked in appends
exactly one row `[identity, roster display name, event id, timestamp, "",
"clock-in"]` to the ledger; the event id is the 8-character truncation of
the UUID string; the timestamp has the shape `HH:MM:SS DD-MM-YYYY` with
two-character zero-padded time and date fields; and the session entry for
the identity becomes `clocked_in = true` with that event id and
timestamp. -/
theorem C6_clock_in_success_shape (students : List Person)
    (sess : SessionMap) (lf : Option (List Row)) (n u : String)
    (now : DateTime) (name : String)
    (hg : sessionClockedIn sess n = false)
    (hf : findStudentName students n = some name)
    (hu : 8 ≤ u.length)
    (hhr : now.hour < 24) (hmin : now.minute < 60) (hsec : now.second < 60)
    (hday : now.day ≤ 31) (hmon : now.month ≤ 12) :
    (clock_in students sess lf n u now).appended =
      some [n, name, makeUniqueId u, formatTimestamp now, "", "clock-in"] ∧
    (clock_in students sess lf n u now).ledger =
      some (lf.getD [] ++
        [[n, name, makeUniqueId u, formatTimestamp now, "", "clock-in"]]) ∧
    (makeUniqueId u).length = 8 ∧
    (∃ hh mm ss dd mo : String,
      formatTimestamp now =
        hh ++ ":" ++ mm ++ ":" ++ ss ++ " " ++ dd ++ "-" ++ mo ++ "-" ++
          toString now.year ∧
      hh.length = 2 ∧ mm.length = 2 ∧ ss.length = 2 ∧ dd.length = 2 ∧
      mo.length = 2) ∧
    dictGet (clock_in students sess lf n u now).sess n =
      some ⟨name, formatTimestamp now, makeUniqueId u, true⟩ := by
  rw [clock_in_success students sess lf n u now name hg hf]
  refine ⟨rfl, rfl, makeUniqueId_length hu, ?_, dictGet_dictSet_self sess n _⟩
  exact ⟨pad2 now.hour, pad2 now.minute, pad2 now.second, pad2 now.day,
    pad2 now.month, rfl, pad2_length (by omega), pad2_length (by omega),
    pad2_length (by omega), pad2_length (by omega), pad2_length (by omega)⟩

/-- C6 witness: the concrete scenario of the spec (roster `Jane Doe,1001`,
clock-in with student number 1001). -/
theorem C6_clock_in_success_shape_witness :
    (clock_in [⟨"Jane Doe", "1001"⟩] [] (some []) "1001"
        "123e4567-e89b-12d3-a456-426614174000" ⟨9, 5, 3, 12, 10, 2026⟩).appended =
      some ["1001", "Jane Doe", "123e4567", "09:05:03 12-10-2026", "", "clock-in"] := by
  have h := C6_clock_in_success_shape [⟨"Jane Doe", "1001"⟩] [] (some []) "1001"
      "123e4567-e89b-12d3-a456-426614174000" ⟨9, 5, 3, 12, 10, 2026⟩ "Jane Doe"
      rfl (by decide) (by decide) (by decide) (by decide) (by decide) (by decide)
      (by decide)
  rw [h.1]
  decide

/-- C7, as stated, is false: at a concrete clock-in request whose
identity matches no roster entry (and which the already-clocked-in guard
does not block), the handler does not append any ledger row and does not
update the session; it aborts with an uncaught `UnboundLocalError` when
line 98 reads the never-assigned `student_name`. -/
theorem C7_counterexample :
    (clock_in [⟨"Jane Doe", "1001"⟩] [] (some []) "9999"
        "123e4567-e89b-12d3-a456-426614174000" ⟨9, 0, 0, 1, 2, 2026⟩).error =
      some "UnboundLocalError" ∧
    (clock_in [⟨"Jane Doe", "1001"⟩] [] (some []) "9999"
        "123e4567-e89b-12d3-a456-426614174000" ⟨9, 0, 0, 1, 2, 2026⟩).appended =
      none ∧
    (clock_in [⟨"Jane Doe", "1001"⟩] [] (some []) "9999"
        "123e4567-e89b-12d3-a456-426614174000" ⟨9, 0, 0, 1, 2, 2026⟩).ledger =
      some [] ∧
    (clock_in [⟨"Jane Doe", "1001"⟩] [] (some []) "9999"
        "123e4567-e89b-12d3-a456-426614174000" ⟨9, 0, 0, 1, 2, 2026⟩).sess =
      [] := by
  decide

/-- C7 amended: for every clock-in request whose submitted identity
matches no roster entry (and which is not blocked by the
already-clocked-in guard), the handler raises an uncaught
`UnboundLocalError` while building the ledger row: no row is appended,
the session is unchanged, no warning is flashed, and the request fails as
an unhandled server error rather than an explicit rejection (the
append-mode `open` still creates the ledger file if it was missing). -/
theorem C7_amended_unknown_identity_raises (students : List Person)
    (sess : SessionMap) (lf : Option (List Row)) (n u : String)
    (now : DateTime)
    (hg : sessionClockedIn sess n = false)
    (hf : findStudentName students n = none) :
    clock_in students sess lf n u now =
      ⟨some (lf.getD []), sess, [], none, false, some "UnboundLocalError"⟩ :=
  clock_in_unbound students sess lf n u now hg hf

/-- C7 amended witness: unknown student number 9999, missing ledger file
(created empty by the append-mode open, but no row written). -/
theorem C7_amended_witness :
    clock_in [⟨"Jane Doe", "1001"⟩] [] none "9999"
      "123e4567-e89b-12d3-a456-426614174000" ⟨1, 2, 3, 4, 5, 2026⟩ =
      ⟨some [], [], [], none, false, some "UnboundLocalError"⟩ :=
  C7_amended_unknown_identity_raises _ _ _ _ _ _ rfl (by decide)

/-- C8: a clock-out request by an identity whose session entry has
`clocked_in = true` sets that entry's `clocked_in` to `false` (keeping
name, clock-in time, and event id) for every ledger content — in
particular whether or not the scan found a matching row — and surfaces no
error and no warning when the ledger and session disagree. -/
theorem C8_clock_out_session_false_regardless (sess : SessionMap)
    (ledger : List Row) (n : String) (now : DateTime) (e : SessionEntry)
    (hd : dictGet sess n = some e) (hc : e.clocked_in = true) :
    dictGet (clock_out sess (some ledger) n now).sess n =
      some ⟨e.name, e.clock_in_time, e.unique_id, false⟩ ∧
    (clock_out sess (some ledger) n now).error = none ∧
    (clock_out sess (some ledger) n now).flashes = [] := by
  rw [clock_out_success sess ledger n now e hd hc]
  exact ⟨dictGet_dictSet_self sess n _, rfl, rfl⟩

/-- C8 witness: the ledger is empty, so the scan cannot find a match, yet
the session entry is still flipped to clocked-out and no error is
surfaced. -/
theorem C8_clock_out_session_false_regardless_witness :
    dictGet (clock_out
        [("1001", ⟨"Jane Doe", "09:00:00 01-02-2026", "ab12cd34", true⟩)]
        (some []) "1001" ⟨12, 0, 0, 1, 2, 2026⟩).sess "1001" =
      some ⟨"Jane Doe", "09:00:00 01-02-2026", "ab12cd34", false⟩ ∧
    (clock_out [("1001", ⟨"Jane Doe", "09:00:00 01-02-2026", "ab12cd34", true⟩)]
        (some []) "1001" ⟨12, 0, 0, 1, 2, 2026⟩).error = none ∧
    (clock_out [("1001", ⟨"Jane Doe", "09:00:00 01-02-2026", "ab12cd34", true⟩)]
        (some []) "1001" ⟨12, 0, 0, 1, 2, 2026⟩).flashes = [] :=
  C8_clock_out_session_false_regardless _ _ _ _
    ⟨"Jane Doe", "09:00:00 01-02-2026", "ab12cd34", true⟩ rfl rfl

/-- C9, as stated, is false in its ledger-scan part: at a concrete
clock-out request over a ledger containing a two-field row, no error is
raised — the `len(row) >= 6` guard skips the short row, which is
rewritten back unchanged. -/
theorem C9_counterexample :
    (clock_out [("1001", ⟨"Jane Doe", "09:00:00 01-02-2026", "ab12cd34", true⟩)]
        (some [["short", "row"]]) "1001" ⟨13, 0, 0, 1, 2, 2026⟩).error = none ∧
    (clock_out [("1001", ⟨"Jane Doe", "09:00:00 01-02-2026", "ab12cd34", true⟩)]
        (some [["short", "row"]]) "1001" ⟨13, 0, 0, 1, 2, 2026⟩).ledger =
      some [["short", "row"]] := by
  decide

/-- C9 amended: a missing roster file raises `FileNotFoundError` and a
roster row with fewer than two columns raises `IndexError`, both
uncaught; a missing ledger file on the clock-out read raises an uncaught
`FileNotFoundError`; but a ledger row with fewer than six fields
encountered during the clock-out scan raises nothing — the
`len(row) >= 6` guard skips it and it is carried into the rewrite
unchanged. -/
theorem C9_amended_uncaught_reads (rows : List Row) (header : Row)
    (sess : SessionMap) (n : String) (now : DateTime) (e : SessionEntry)
    (ledger : List Row) (row : Row)
    (hbad : ∃ r ∈ rows, r.length < 2)
    (hd : dictGet sess n = some e) (hc : e.clocked_in = true)
    (hshort : row.length < 6) :
    load_students none = Except.error "FileNotFoundError" ∧
    (∃ msg, load_students (some (header :: rows)) = Except.error msg) ∧
    (clock_out sess none n now).error = some "FileNotFoundError" ∧
    (clock_out sess (some ledger) n now).error = none ∧
    updateRow n e.unique_id (formatTimestamp now) row = row := by
  refine ⟨rfl, ?_, ?_, ?_, ?_⟩
  · obtain ⟨msg, hmsg⟩ := parseStudents_error_of_short rows hbad
    exact ⟨msg, hmsg⟩
  · rw [clock_out_missing_file sess n now e hd hc]
  · rw [clock_out_success sess ledger n now e hd hc]
  · exact updateRow_of_not_matches (rowMatches_short hshort)

/-- C9 amended witness: a one-column roster row, a missing ledger file,
and a two-field ledger row. -/
theorem C9_amended_uncaught_reads_witness :
    (clock_out [("1001", ⟨"Jane Doe", "t", "ab12cd34", true⟩)] none "1001"
        ⟨14, 0, 0, 1, 2, 2026⟩).error = some "FileNotFoundError" ∧
    updateRow "1001" "ab12cd34" (formatTimestamp ⟨14, 0, 0, 1, 2, 2026⟩)
      ["too", "short"] = ["too", "short"] := by
  have h := C9_amended_uncaught_reads [["only-one-field"]] ["name", "number"]
      [("1001", ⟨"Jane Doe", "t", "ab12cd34", true⟩)] "1001"
      ⟨14, 0, 0, 1, 2, 2026⟩ ⟨"Jane Doe", "t", "ab12cd34", true⟩ []
      ["too", "short"] ⟨["only-one-field"], by decide, by decide⟩ rfl rfl
      (by decide)
  exact ⟨h.2.2.1, h.2.2.2.2⟩

/-- C10: a clock-out that passes the clocked-in guard but matches no
ledger row still rewrites the whole ledger file, and the rewritten
contents are exactly the rows parsed from the original file, unmodified
and in the same order. -/
theorem C10_no_match_full_rewrite_identity (sess : SessionMap)
    (ledger : List Row) (n : String) (now : DateTime) (e : SessionEntry)
    (hd : dictGet sess n = some e) (hc : e.clocked_in = true)
    (hnone : ∀ row ∈ ledger, rowMatches n e.unique_id row = false) :
    (clock_out sess (some ledger) n now).rewrote = true ∧
    (clock_out sess (some ledger) n now).ledger = some ledger := by
  rw [clock_out_success sess ledger n now e hd hc]
  exact ⟨rfl, by rw [map_update_eq_self_of_no_match _ _ _ ledger hnone]⟩

/-- C10 witness: the session says clocked in with event id `ab12cd34`,
but the ledger holds only an already-closed row and an open row of a
different identity; the file is rewritten with identical contents. -/
theorem C10_no_match_full_rewrite_identity_witness :
    (clock_out [("1001", ⟨"Jane Doe", "09:00:00 01-02-2026", "ab12cd34", true⟩)]
        (some [["1001", "Jane Doe", "99999999", "07:00:00 01-02-2026",
                "08:00:00 01-02-2026", "clock-out"],
               ["1002", "Bob", "deadbeef", "08:30:00 01-02-2026", "", "clock-in"]])
        "1001" ⟨15, 0, 0, 1, 2, 2026⟩).rewrote = true ∧
    (clock_out [("1001", ⟨"Jane Doe", "09:00:00 01-02-2026", "ab12cd34", true⟩)]
        (some [["1001", "Jane Doe", "99999999", "07:00:00 01-02-2026",
                "08:00:00 01-02-2026", "clock-out"],
               ["1002", "Bob", "deadbeef", "08:30:00 01-02-2026", "", "clock-in"]])
        "1001" ⟨15, 0, 0, 1, 2, 2026⟩).ledger =
      some [["1001", "Jane Doe", "99999999", "07:00:00 01-02-2026",
             "08:00:00 01-02-2026", "clock-out"],
            ["1002", "Bob", "deadbeef", "08:30:00 01-02-2026", "", "clock-in"]] :=
  C10_no_match_full_rewrite_identity _ _ _ _
    ⟨"Jane Doe", "09:00:00 01-02-2026", "ab12cd34", true⟩ rfl rfl (by decide)
